import Mathlib

/-!
# oursql: connection lifecycle, statement execution and error mapping

A shallow embedding of `conn.go` (package `oursql`).

Conventions of the embedding.

* Go strings are Lean `String`s. A C string returned by the native layer is the
  `String` of its bytes before the terminating NUL, so the Go test `*err != 0`
  (first byte is not NUL) is the test `err ≠ ""`.
* Go `int` / `int64` values are `Int`s, `uint64` and the C unsigned types are
  `Nat`s. A conversion between integer types of different range is written out
  with its wrap-around (`uint64_of_int`, `int64_of_ulong`); a conversion that
  cannot leave the range of its target (`uint64(my_ulonglong)`,
  `int(unsigned int)`) is the identity.
* A method with a pointer receiver takes the receiver's value and gives the
  updated value back. A Go `error` / pointer result that may be `nil` is an
  `Option`.
* The native layer (the C functions `our_*` and the client library behind them)
  is not part of the package: it is a table `Native` of functions the
  definitions are parameterised by. Every call of a native function is recorded
  in the list of `NativeCall`s an operation returns, in call order.
* Marshalling of strings to C memory (`C.CString`, `cfree`, `stringPointer`) is
  not modelled.
-/

namespace oursql

/-! ## Data model -/

/-- Session parameters, `type ConnectionParams struct`. -/
structure ConnectionParams where
  Host : String
  Port : Int
  Uname : String
  Pass : String
  DbName : String
  UnixSocket : String
  Charset : String
  Flags : Nat
  deriving DecidableEq

/-- Structured error, `type SqlError struct`. -/
@[ext]
structure SqlError where
  Num : Int
  Message : String
  Query : String
  deriving DecidableEq

/-- Modelled from the spec: the native session handle `C.MYSQL`, whose
declaration is in the C header and not in `conn.go`. `conn.go` reads the two
counters `affected_rows` and `insert_id` as fields ("read-affected-row-count,
read-last-insert-id"); whatever else the client library keeps in the handle is
`session`, which only native functions look at. -/
structure MYSQL where
  affected_rows : Nat
  insert_id : Nat
  session : Nat
  deriving DecidableEq

/-- A Go zero value of `C.MYSQL`, as in `&Connection{}`. -/
def MYSQL.zero : MYSQL := ⟨0, 0, 0⟩

/-- The connection, `type Connection struct`. -/
structure Connection where
  c : MYSQL
  closed : Bool
  deriving DecidableEq

/-- Modelled from the spec: the execution mode tag `C.OUR_MODE` ("a mode tag
(none / buffered / streaming)"), declared in the C header; `conn.go` names its
three values. -/
inductive OUR_MODE where
  | OUR_MODE_NON
  | OUR_MODE_SET
  | OUR_MODE_READER
  deriving DecidableEq

/-- Modelled from the spec: one outcome of the native fetch-row primitive before
end-of-rows ("next row or end-of-rows signal"; "if row-pulling fails
partway"): a row of column values, or a failure signal. -/
inductive Fetched where
  | row (values : List String)
  | failure
  deriving DecidableEq

/-- Modelled from the spec: the native result handle `C.OUR_RES`, whose
declaration is in the C header and not in `conn.go`. `conn.go` reads
`num_fields` as a field. `cursor` is the state of the native cursor: what the
fetch-row primitive will deliver, in server order, before it signals
end-of-rows; `released` tells whether the cursor has been released. -/
structure OUR_RES where
  num_fields : Nat
  cursor : List Fetched
  released : Bool
  deriving DecidableEq

/-- A Go zero value of `C.OUR_RES`. -/
def OUR_RES.zero : OUR_RES := ⟨0, [], false⟩

/-- Modelled from the spec: a column descriptor of the field metadata, whose
declaration is not in `conn.go` ("sequence of column descriptors (name, type
tag)"). -/
structure Field where
  Name : String
  TypeTag : Int
  deriving DecidableEq

/-- Modelled from the spec: the plain result `Result`, whose declaration is not
in `conn.go` ("affected-row count, last-generated-identifier, owning
Connection reference"). Its fields are the ones `execute` writes: the native
result handle `c`, the back-reference `conn`, `RowsAffected` and `InsertId`.
The back-reference `conn *Connection` is `none` for `nil` and otherwise the
connection it points to. -/
structure Result where
  c : OUR_RES
  conn : Option Connection
  RowsAffected : Nat
  InsertId : Nat
  deriving DecidableEq

/-- A Go zero value `&Result{}`. -/
def Result.zero : Result := ⟨OUR_RES.zero, none, 0, 0⟩

/-- Modelled from the spec: the part shared by both row-set results,
`_QueryResult`, whose declaration is not in `conn.go`: the embedded `Result`
that `query` passes to `execute`, and the "optional FieldMetadata". -/
structure _QueryResult where
  Result : Result
  Fields : List Field
  deriving DecidableEq

/-- A Go zero value of `_QueryResult`. -/
def _QueryResult.zero : _QueryResult := ⟨Result.zero, []⟩

/-- Modelled from the spec: the buffered row set `DataSet`, whose declaration is
not in `conn.go`: the embedded `_QueryResult` that `QuerySet` passes to
`query`, "plus an eagerly-populated ordered sequence of rows, each row an
ordered sequence of column values". -/
structure DataSet where
  _QueryResult : _QueryResult
  Rows : List (List String)
  deriving DecidableEq

/-- A Go zero value `&DataSet{}`. -/
def DataSet.zero : DataSet := ⟨_QueryResult.zero, []⟩

/-- Modelled from the spec: the streaming row reader `DataReader`, whose
declaration is not in `conn.go`: the embedded `_QueryResult` that
`QueryReader` passes to `query`. Its open cursor is the one of the native
result handle. -/
structure DataReader where
  _QueryResult : _QueryResult
  deriving DecidableEq

/-- A Go zero value `&DataReader{}`. -/
def DataReader.zero : DataReader := ⟨_QueryResult.zero⟩

/-! ## The native layer -/

/-- The native layer, taken as a parameter: the native functions `conn.go`
calls, as functions of the handle they are given. `our_connect` and `our_query` return the C status (zero for success)
together with the handle(s) they wrote to; `our_error`, `our_errno` and
`our_thread_id` only read the handle; `our_errno` is a C `unsigned int` and
`our_thread_id` a C `unsigned long`. `our_fetch_field` and `our_free_result`
are the field-descriptor and cursor-release primitives the result containers
use (their C names are not in `conn.go`). -/
structure Native where
  our_connect : MYSQL → String → String → String → String → Nat → String → String → Nat →
    Int × MYSQL
  our_close : MYSQL → MYSQL
  our_error : MYSQL → String
  our_errno : MYSQL → Nat
  our_thread_id : MYSQL → Nat
  our_query : MYSQL → OUR_RES → String → Nat → OUR_MODE → Int × MYSQL × OUR_RES
  our_fetch_field : OUR_RES → Nat → Field
  our_free_result : OUR_RES → OUR_RES

/-- A record of one call of a native function, with the arguments that tell
calls apart. -/
inductive NativeCall where
  | our_connect (host uname pass dbname : String) (port : Nat)
      (unix_socket charset : String) (flags : Nat)
  | our_close (h : MYSQL)
  | our_error (h : MYSQL)
  | our_errno (h : MYSQL)
  | our_thread_id (h : MYSQL)
  | our_query (h : MYSQL) (sql : String) (length : Nat) (mode : OUR_MODE)
  | our_fetch_field (index : Nat)
  | our_fetch_row
  | our_free_result
  deriving DecidableEq

/-! ## Integer conversions -/

/-- Go `uint64(x)` for `x` of type `int`: two's-complement wrap-around. -/
def uint64_of_int (x : Int) : Nat := (x % 2 ^ 64).toNat

/-- Go `int64(x)` for `x` a C `unsigned long`: two's-complement wrap-around. -/
def int64_of_ulong (x : Nat) : Int :=
  if x % 2 ^ 64 < 2 ^ 63 then ((x % 2 ^ 64 : Nat) : Int) else ((x % 2 ^ 64 : Nat) : Int) - 2 ^ 64

/-- C `(unsigned int) x` for `x` a Go `int`, as in `C.uint(params.Port)`. -/
def cuint_of_int (x : Int) : Nat := (x % 2 ^ 32).toNat

/-! ## Session parameters and errors -/

/-- `func (c *ConnectionParams) Redact()`. -/
def ConnectionParams.Redact (c : ConnectionParams) : ConnectionParams :=
  { c with Pass := "***" }

/-- `func (se *SqlError) Error() string`. `%v` renders the message as it is and
the number in decimal (with a leading minus sign when negative). -/
def SqlError.Error (se : SqlError) : String :=
  if se.Query = "" then
    se.Message ++ " (errno " ++ toString se.Num ++ ")"
  else
    se.Message ++ " (errno " ++ toString se.Num ++ ") during query: " ++ se.Query

/-- `func (se *SqlError) Number() int`. -/
def SqlError.Number (se : SqlError) : Int := se.Num

/-! ## Connection -/

/-- `func (conn *Connection) lastError(query string) error`: the error and the
native calls made. `our_error` is read first; `our_errno` is read only when the
error text is not empty. -/
def Connection.lastError (N : Native) (conn : Connection) (query : String) :
    SqlError × List NativeCall :=
  let err := N.our_error conn.c
  if err ≠ "" then
    ({ Num := (N.our_errno conn.c : Int), Message := err, Query := query },
      [NativeCall.our_error conn.c, NativeCall.our_errno conn.c])
  else
    ({ Num := 0, Message := "Unknow", Query := query }, [NativeCall.our_error conn.c])

/-- `func (conn *Connection) Id() int64`. -/
def Connection.Id (N : Native) (conn : Connection) : Int × List NativeCall :=
  (int64_of_ulong (N.our_thread_id conn.c), [NativeCall.our_thread_id conn.c])

/-- `func (conn *Connection) Close()`: the connection after the call and the
native calls made. -/
def Connection.Close (N : Native) (conn : Connection) : Connection × List NativeCall :=
  ({ c := N.our_close conn.c, closed := true }, [NativeCall.our_close conn.c])

/-- `func (conn *Connection) IsClosed() bool`. -/
def Connection.IsClosed (conn : Connection) : Bool := conn.closed

/-- The call `C.our_connect(&conn.c, host, uname, pass, dbname, port, unix_socket,
charset, flags)` that `Connect` makes on a fresh handle, with
`port := C.uint(params.Port)` and `flags := C.ulong(params.Flags)`: its status
and the handle it leaves. -/
def nativeConnect (N : Native) (params : ConnectionParams) : Int × MYSQL :=
  N.our_connect MYSQL.zero params.Host params.Uname params.Pass params.DbName
    (cuint_of_int params.Port) params.UnixSocket params.Charset params.Flags

/-- The record of that call. -/
def connectCall (params : ConnectionParams) : NativeCall :=
  NativeCall.our_connect params.Host params.Uname params.Pass params.DbName
    (cuint_of_int params.Port) params.UnixSocket params.Charset params.Flags

/-- `func Connect(params ConnectionParams) (conn *Connection, err error)`.
On failure the returned error is computed first (`return nil, conn.lastError("")`)
and the deferred `conn.Close()` runs after it. -/
def Connect (N : Native) (params : ConnectionParams) :
    Option Connection × Option SqlError × List NativeCall :=
  let conn : Connection := { c := MYSQL.zero, closed := false }
  let r := nativeConnect N params
  let conn : Connection := { conn with c := r.2 }
  if r.1 ≠ 0 then
    let e := conn.lastError N ""
    let cl := conn.Close N
    (none, some e.1, [connectCall params] ++ e.2 ++ cl.2)
  else
    (some conn, none, [connectCall params])

/-- What a statement-execution operation leaves behind: the value it produced
(`val`: the result container written through a pointer argument, or the
pointer returned, `none` for `nil`), the returned `error` (`none` for `nil`),
the connection after the call and the native calls made, in order. -/
structure Outcome (α : Type) where
  val : α
  err : Option SqlError
  conn : Connection
  calls : List NativeCall

/-- The call `C.our_query(&conn.c, &res.c, stringPointer(sql), C.ulong(len(sql)), mode)`
that `execute` makes: its status, and the session handle and the result handle
it leaves. -/
def nativeQuery (N : Native) (conn : Connection) (res : Result) (sql : String)
    (mode : OUR_MODE) : Int × MYSQL × OUR_RES :=
  N.our_query conn.c res.c sql sql.utf8ByteSize mode

/-- The record of that call. -/
def queryCall (conn : Connection) (sql : String) (mode : OUR_MODE) : NativeCall :=
  NativeCall.our_query conn.c sql sql.utf8ByteSize mode

/-- `func (conn *Connection) execute(sql string, mode C.OUR_MODE, res *Result) error`. -/
def Connection.execute (N : Native) (conn : Connection) (sql : String) (mode : OUR_MODE)
    (res : Result) : Outcome Result :=
  if conn.IsClosed then
    ⟨res, some { Num := 2006, Message := "Connection is closed", Query := "" }, conn, []⟩
  else
    let call := queryCall conn sql mode
    let r := nativeQuery N conn res sql mode
    let conn : Connection := { conn with c := r.2.1 }
    let res : Result := { res with c := r.2.2 }
    if r.1 ≠ 0 then
      let e := conn.lastError N sql
      ⟨res, some e.1, conn, [call] ++ e.2⟩
    else
      ⟨{ res with conn := some conn, RowsAffected := conn.c.affected_rows,
                  InsertId := conn.c.insert_id }, none, conn, [call]⟩

/-- Modelled from the spec: `fillFields`, a method of the result containers that
is not in `conn.go`. "If column metadata was requested, populate FieldMetadata
by querying the native field-descriptor primitive once per column, in
server-reported order." -/
def _QueryResult.fillFields (N : Native) (res : _QueryResult) :
    _QueryResult × List NativeCall :=
  ({ res with Fields := (List.range res.Result.c.num_fields).map (N.our_fetch_field res.Result.c) },
    (List.range res.Result.c.num_fields).map NativeCall.our_fetch_field)

/-- `func (conn *Connection) query(sql string, mode C.OUR_MODE, res *_QueryResult,
maxrows int, wantFields bool) error`. -/
def Connection.query (N : Native) (conn : Connection) (sql : String) (mode : OUR_MODE)
    (res : _QueryResult) (maxrows : Int) (wantFields : Bool) : Outcome _QueryResult :=
  let x := conn.execute N sql mode res.Result
  let res : _QueryResult := { res with Result := x.val }
  match x.err with
  | some err => ⟨res, some err, x.conn, x.calls⟩
  | none =>
    if res.Result.c.num_fields = 0 then
      ⟨res, none, x.conn, x.calls⟩
    else if maxrows > 0 ∧ res.Result.RowsAffected > uint64_of_int maxrows then
      ⟨res, some { Num := 0, Message := "Row count exceeded " ++ toString maxrows, Query := sql },
        x.conn, x.calls⟩
    else if wantFields then
      let f := res.fillFields N
      ⟨f.1, none, x.conn, x.calls ++ f.2⟩
    else
      ⟨res, none, x.conn, x.calls⟩

/-- `func (conn *Connection) Execute(sql string) (res *Result, err error)`. -/
def Connection.Execute (N : Native) (conn : Connection) (sql : String) :
    Outcome (Option Result) :=
  let x := conn.execute N sql OUR_MODE.OUR_MODE_NON Result.zero
  match x.err with
  | some err => ⟨none, some err, x.conn, x.calls⟩
  | none => ⟨some x.val, none, x.conn, x.calls⟩

/-- The rows a cursor delivers up to end-of-rows, in order; `none` when a
fetch fails on the way. -/
def pullRows : List Fetched → Option (List (List String))
  | [] => some []
  | Fetched.row values :: rest => (pullRows rest).map (fun rows => values :: rows)
  | Fetched.failure :: _ => none

/-- The number of fetch-row calls that pulling a cursor makes: one for each row
delivered and one for the end-of-rows or failure signal that stops it. -/
def pullCalls : List Fetched → Nat
  | [] => 1
  | Fetched.row _ :: rest => pullCalls rest + 1
  | Fetched.failure :: _ => 1

/-- Modelled from the spec: `fillRows`, a method of `DataSet` that is not in
`conn.go`. "Eagerly pull every row from the native cursor into an ordered
sequence, preserving server order"; "if row-pulling fails partway, ... surface
the mapped error; no partial row set is returned". The mapped error is that of
the connection the result refers back to, without statement text. -/
def DataSet.fillRows (N : Native) (res : DataSet) : Option SqlError × DataSet × List NativeCall :=
  let cur := res._QueryResult.Result.c.cursor
  let fetches := List.replicate (pullCalls cur) NativeCall.our_fetch_row
  match pullRows cur with
  | some rows => (none, { res with Rows := rows }, fetches)
  | none =>
    let conn := res._QueryResult.Result.conn.getD { c := MYSQL.zero, closed := false }
    let e := conn.lastError N ""
    (some e.1, res, fetches ++ e.2)

/-- Modelled from the spec: `close`, a method of the result containers that is
not in `conn.go`. It releases the native cursor ("close(handle): releases the
session or cursor"). -/
def DataSet.close (N : Native) (res : DataSet) : DataSet × List NativeCall :=
  ({ res with _QueryResult := { res._QueryResult with
      Result := { res._QueryResult.Result with c := N.our_free_result res._QueryResult.Result.c } } },
    [NativeCall.our_free_result])

/-- `func (conn *Connection) QuerySet(sql string, maxrows int, wantFields bool)
(res *DataSet, err error)`. The deferred `res.close()` runs after `fillRows`,
whether it failed or not. -/
def Connection.QuerySet (N : Native) (conn : Connection) (sql : String) (maxrows : Int)
    (wantFields : Bool) : Outcome (Option DataSet) :=
  let res := DataSet.zero
  let q := conn.query N sql OUR_MODE.OUR_MODE_SET res._QueryResult maxrows wantFields
  let res : DataSet := { res with _QueryResult := q.val }
  match q.err with
  | some err => ⟨none, some err, q.conn, q.calls⟩
  | none =>
    let f := res.fillRows N
    let cl := f.2.1.close N
    match f.1 with
    | some err => ⟨none, some err, q.conn, q.calls ++ f.2.2 ++ cl.2⟩
    | none => ⟨some cl.1, none, q.conn, q.calls ++ f.2.2 ++ cl.2⟩

/-- `func (conn *Connection) QueryReader(sql string, maxrows int, wantFields bool)
(res *DataReader, err error)`. -/
def Connection.QueryReader (N : Native) (conn : Connection) (sql : String) (maxrows : Int)
    (wantFields : Bool) : Outcome (Option DataReader) :=
  let res := DataReader.zero
  let q := conn.query N sql OUR_MODE.OUR_MODE_READER res._QueryResult maxrows wantFields
  let res : DataReader := { res with _QueryResult := q.val }
  match q.err with
  | some err => ⟨none, some err, q.conn, q.calls⟩
  | none => ⟨some res, none, q.conn, q.calls⟩

/-- The fixed error of a statement attempted on a closed connection. -/
def connectionClosed : SqlError := { Num := 2006, Message := "Connection is closed", Query := "" }

/-! ## Runs of operations on a connection -/

/-- The operations of a Connection. -/
inductive Op where
  | Close
  | Id
  | IsClosed
  | Execute (sql : String)
  | QuerySet (sql : String) (maxrows : Int) (wantFields : Bool)
  | QueryReader (sql : String) (maxrows : Int) (wantFields : Bool)
  deriving DecidableEq

/-- The connection an operation leaves. `Id` and `IsClosed` only read it. -/
def Op.apply (N : Native) (conn : Connection) : Op → Connection
  | Op.Close => (conn.Close N).1
  | Op.Id => conn
  | Op.IsClosed => conn
  | Op.Execute sql => (conn.Execute N sql).conn
  | Op.QuerySet sql maxrows wantFields => (conn.QuerySet N sql maxrows wantFields).conn
  | Op.QueryReader sql maxrows wantFields => (conn.QueryReader N sql maxrows wantFields).conn

/-- The connection a sequence of operations leaves. -/
def run (N : Native) (conn : Connection) : List Op → Connection
  | [] => conn
  | op :: ops => run N (op.apply N conn) ops

/-- The number of steps of a run that take the connection from Open to
Closed. -/
def transitions (N : Native) (conn : Connection) : List Op → Nat
  | [] => 0
  | op :: ops =>
    (if conn.IsClosed = false ∧ (op.apply N conn).IsClosed = true then 1 else 0) +
      transitions N (op.apply N conn) ops

/-! ## A stub of the native layer, for concrete runs -/

/-- What a stub server answers: the status of connect and of execute, the
pending error text and number, and what a successful execute reports. -/
structure StubServer where
  connectStatus : Int
  queryStatus : Int
  errorText : String
  errorNumber : Nat
  affectedRows : Nat
  insertId : Nat
  columns : List Field
  rows : List Fetched

/-- The native layer played by a stub server. -/
def StubServer.native (s : StubServer) : Native where
  our_connect := fun h _ _ _ _ _ _ _ _ => (s.connectStatus, { h with session := 1 })
  our_close := fun h => { h with session := 0 }
  our_error := fun _ => s.errorText
  our_errno := fun _ => s.errorNumber
  our_thread_id := fun h => h.session
  our_query := fun h _ _ _ _ =>
    (s.queryStatus, { h with affected_rows := s.affectedRows, insert_id := s.insertId },
      { num_fields := s.columns.length, cursor := s.rows, released := false })
  our_fetch_field := fun _ i => s.columns.getD i { Name := "", TypeTag := 0 }
  our_free_result := fun r => { r with cursor := [], released := true }

/-- The native layer played by a stub server whose close counts the releases
of a handle in its session state, as a test double that asserts the number of
native invocations does. -/
def StubServer.countingNative (s : StubServer) : Native :=
  { s.native with our_close := fun h => { h with session := h.session + 1 } }

/-- An open connection to a stub server. -/
def openConn : Connection := { c := { affected_rows := 0, insert_id := 0, session := 1 }, closed := false }

/-- Whether a recorded native call is a call of `our_close`. -/
def NativeCall.isClose : NativeCall → Bool
  | NativeCall.our_close _ => true
  | _ => false

/-! ## Session parameters: redaction -/

/-- C9. `Redact` leaves Host, Port, Uname, DbName, UnixSocket, Charset and Flags
as they were and sets Pass to the marker "***"; it is idempotent, and its
result does not depend on the password it was given. -/
theorem redact_frame (p : ConnectionParams) :
    p.Redact.Host = p.Host ∧ p.Redact.Port = p.Port ∧ p.Redact.Uname = p.Uname ∧
    p.Redact.DbName = p.DbName ∧ p.Redact.UnixSocket = p.UnixSocket ∧
    p.Redact.Charset = p.Charset ∧ p.Redact.Flags = p.Flags ∧
    p.Redact.Pass = "***" ∧
    p.Redact.Redact = p.Redact ∧
    (∀ secret : String, ({ p with Pass := secret } : ConnectionParams).Redact = p.Redact) :=
  ⟨rfl, rfl, rfl, rfl, rfl, rfl, rfl, rfl, rfl, fun _ => rfl⟩

/-! ## Structured errors: formatting -/

/-- C4. The text of `Error()` contains the decimal numeric code; it is
"Message (errno Num)" when Query is empty and "Message (errno Num) during query:
Query" otherwise, in which case it contains the statement text; `Number()` is
Num. -/
theorem error_text_format (se : SqlError) :
    (toString se.Num).data <:+: se.Error.data ∧
    (se.Query = "" → se.Error = se.Message ++ " (errno " ++ toString se.Num ++ ")") ∧
    (se.Query ≠ "" →
      se.Error = se.Message ++ " (errno " ++ toString se.Num ++ ") during query: " ++ se.Query ∧
      se.Query.data <:+: se.Error.data) ∧
    se.Number = se.Num := by
  refine ⟨?_, ?_, ?_, rfl⟩
  · unfold SqlError.Error
    split
    · exact ⟨(se.Message ++ " (errno ").data, ")".data, by simp [String.data_append]⟩
    · exact ⟨(se.Message ++ " (errno ").data, (") during query: " ++ se.Query).data,
        by simp [String.data_append]⟩
  · intro h
    simp [SqlError.Error, h]
  · intro h
    refine ⟨by simp [SqlError.Error, h], ?_⟩
    unfold SqlError.Error
    rw [if_neg h]
    exact ⟨(se.Message ++ " (errno " ++ toString se.Num ++ ") during query: ").data, [],
      by simp [String.data_append]⟩

/-- An instance of C4: code 1045 without and with a statement text. -/
theorem error_text_format_witness :
    (SqlError.mk 1045 "Access denied" "").Error = "Access denied (errno 1045)" ∧
    (SqlError.mk 1064 "Syntax error" "SELEC 1").Error =
      "Syntax error (errno 1064) during query: SELEC 1" ∧
    "SELEC 1".data <:+: (SqlError.mk 1064 "Syntax error" "SELEC 1").Error.data :=
  ⟨((error_text_format ⟨1045, "Access denied", ""⟩).2.1 rfl).trans (by decide),
   (((error_text_format ⟨1064, "Syntax error", "SELEC 1"⟩).2.2.1 (by decide)).1).trans (by decide),
   ((error_text_format ⟨1064, "Syntax error", "SELEC 1"⟩).2.2.1 (by decide)).2⟩

/-! ## The error mapper -/

/-- The mapped error always carries the statement text it was given. -/
lemma lastError_query (N : Native) (conn : Connection) (q : String) :
    (conn.lastError N q).1.Query = q := by
  by_cases h : N.our_error conn.c = "" <;> simp [Connection.lastError, h]

/-- C5. The error mapper returns an error whose Query is the statement text it
was given; when the native error text is not empty, Num and Message are the
native errno and error text; when it is empty, Num is 0 and Message is the
placeholder "Unknow". -/
theorem lastError_maps (N : Native) (conn : Connection) (q : String) :
    (conn.lastError N q).1.Query = q ∧
    (N.our_error conn.c ≠ "" →
      (conn.lastError N q).1.Num = (N.our_errno conn.c : Int) ∧
      (conn.lastError N q).1.Message = N.our_error conn.c) ∧
    (N.our_error conn.c = "" →
      (conn.lastError N q).1.Num = 0 ∧ (conn.lastError N q).1.Message = "Unknow") := by
  refine ⟨?_, ?_, ?_⟩
  · by_cases h : N.our_error conn.c = "" <;> simp [Connection.lastError, h]
  · intro h
    simp [Connection.lastError, h]
  · intro h
    simp [Connection.lastError, h]

/-- Instances of C5: a server error 1146 and a failure without error text. -/
theorem lastError_maps_witness :
    (openConn.lastError (StubServer.native ⟨0, 1, "Table missing", 1146, 0, 0, [], []⟩)
      "SELECT 1").1 = ⟨1146, "Table missing", "SELECT 1"⟩ ∧
    (openConn.lastError (StubServer.native ⟨0, 1, "", 7, 0, 0, [], []⟩)
      "SELECT 1").1 = ⟨0, "Unknow", "SELECT 1"⟩ := by
  have h1 := lastError_maps (StubServer.native ⟨0, 1, "Table missing", 1146, 0, 0, [], []⟩)
    openConn "SELECT 1"
  have h2 := lastError_maps (StubServer.native ⟨0, 1, "", 7, 0, 0, [], []⟩) openConn "SELECT 1"
  constructor
  · have a := h1.2.1 (by decide)
    exact SqlError.ext a.1 a.2 h1.1
  · have b := h2.2.2 rfl
    exact SqlError.ext b.1 b.2 h2.1

/-! ## Connect -/

/-- C6. When the native connect fails, `Connect` returns no Connection and the
error the error mapper gives for the handle with an empty statement text; the
native calls are the connect, then the reads of the error mapper, then one
`our_close` of that handle, which is the only close and the last call. When the
native connect succeeds, `Connect` returns an open Connection holding the
handle, no error, and makes no call but the connect. -/
theorem connect_outcome (N : Native) (params : ConnectionParams) :
    ((nativeConnect N params).1 ≠ 0 →
      (Connect N params).1 = none ∧
      (Connect N params).2.1 =
        some (Connection.lastError N ⟨(nativeConnect N params).2, false⟩ "").1 ∧
      (Connect N params).2.2 = connectCall params ::
        ((Connection.lastError N ⟨(nativeConnect N params).2, false⟩ "").2 ++
          [NativeCall.our_close (nativeConnect N params).2]) ∧
      NativeCall.our_error (nativeConnect N params).2 ∈
        (Connection.lastError N ⟨(nativeConnect N params).2, false⟩ "").2 ∧
      (Connection.lastError N ⟨(nativeConnect N params).2, false⟩ "").2.countP
        NativeCall.isClose = 0 ∧
      (Connect N params).2.2.countP NativeCall.isClose = 1) ∧
    ((nativeConnect N params).1 = 0 →
      (Connect N params).1 = some ⟨(nativeConnect N params).2, false⟩ ∧
      (∀ conn, (Connect N params).1 = some conn → conn.IsClosed = false) ∧
      (Connect N params).2.1 = none ∧
      (Connect N params).2.2 = [connectCall params] ∧
      (Connect N params).2.2.countP NativeCall.isClose = 0) := by
  constructor
  · intro h
    by_cases he : N.our_error (nativeConnect N params).2 = "" <;>
      simp [Connect, h, Connection.lastError, Connection.Close, he, NativeCall.isClose,
        List.countP_cons, connectCall]
  · intro h
    simp [Connect, h, Connection.IsClosed, NativeCall.isClose, List.countP_cons, connectCall]

/-- Instances of C6: a server that refuses every connect with errno 1045 and
the text "Access denied", and a server that accepts the connect. -/
theorem connect_outcome_witness :
    (Connect (StubServer.native ⟨1, 0, "Access denied", 1045, 0, 0, [], []⟩)
      ⟨"db.example", 3306, "app", "secret", "shop", "", "utf8", 0⟩).1 = none ∧
    (Connect (StubServer.native ⟨1, 0, "Access denied", 1045, 0, 0, [], []⟩)
      ⟨"db.example", 3306, "app", "secret", "shop", "", "utf8", 0⟩).2.1 =
        some ⟨1045, "Access denied", ""⟩ ∧
    (Connect (StubServer.native ⟨1, 0, "Access denied", 1045, 0, 0, [], []⟩)
      ⟨"db.example", 3306, "app", "secret", "shop", "", "utf8", 0⟩).2.2.countP
        NativeCall.isClose = 1 ∧
    (Connect (StubServer.native ⟨0, 0, "", 0, 0, 0, [], []⟩)
      ⟨"db.example", 3306, "app", "secret", "shop", "", "utf8", 0⟩).1 =
        some ⟨⟨0, 0, 1⟩, false⟩ ∧
    (Connect (StubServer.native ⟨0, 0, "", 0, 0, 0, [], []⟩)
      ⟨"db.example", 3306, "app", "secret", "shop", "", "utf8", 0⟩).2.1 = none ∧
    (Connect (StubServer.native ⟨0, 0, "", 0, 0, 0, [], []⟩)
      ⟨"db.example", 3306, "app", "secret", "shop", "", "utf8", 0⟩).2.2.countP
        NativeCall.isClose = 0 := by
  have h := (connect_outcome (StubServer.native ⟨1, 0, "Access denied", 1045, 0, 0, [], []⟩)
    ⟨"db.example", 3306, "app", "secret", "shop", "", "utf8", 0⟩).1 (by decide)
  have g := (connect_outcome (StubServer.native ⟨0, 0, "", 0, 0, 0, [], []⟩)
    ⟨"db.example", 3306, "app", "secret", "shop", "", "utf8", 0⟩).2 (by decide)
  exact ⟨h.1, h.2.1.trans (by decide), h.2.2.2.2.2, g.1.trans (by decide), g.2.2.1,
    g.2.2.2.2⟩

/-! ## Statement execution -/

@[simp]
lemma zero_Result_c : Result.zero.c = OUR_RES.zero := rfl

@[simp]
lemma zero_QueryResult_Result : _QueryResult.zero.Result = Result.zero := rfl

@[simp]
lemma zero_QueryResult_Fields : _QueryResult.zero.Fields = [] := rfl

@[simp]
lemma zero_DataSet_QueryResult : DataSet.zero._QueryResult = _QueryResult.zero := rfl

@[simp]
lemma zero_DataReader_QueryResult : DataReader.zero._QueryResult = _QueryResult.zero := rfl

/-- On a closed connection `execute` fails at once and changes nothing. -/
lemma execute_closed (N : Native) (conn : Connection) (sql : String) (mode : OUR_MODE)
    (res : Result) (h : conn.closed = true) :
    conn.execute N sql mode res = ⟨res, some connectionClosed, conn, []⟩ := by
  simp [Connection.execute, Connection.IsClosed, h, connectionClosed]

/-- On an open connection, a successful native execute fills in the result. -/
lemma execute_ok (N : Native) (conn : Connection) (sql : String) (mode : OUR_MODE)
    (res : Result) (h : conn.closed = false) (hq : (nativeQuery N conn res sql mode).1 = 0) :
    conn.execute N sql mode res =
      ⟨{ c := (nativeQuery N conn res sql mode).2.2,
         conn := some ⟨(nativeQuery N conn res sql mode).2.1, false⟩,
         RowsAffected := (nativeQuery N conn res sql mode).2.1.affected_rows,
         InsertId := (nativeQuery N conn res sql mode).2.1.insert_id },
       none, ⟨(nativeQuery N conn res sql mode).2.1, false⟩, [queryCall conn sql mode]⟩ := by
  simp [Connection.execute, Connection.IsClosed, h, hq]

/-- On an open connection, a failed native execute gives the mapped error. -/
lemma execute_failed (N : Native) (conn : Connection) (sql : String) (mode : OUR_MODE)
    (res : Result) (h : conn.closed = false) (hq : (nativeQuery N conn res sql mode).1 ≠ 0) :
    conn.execute N sql mode res =
      ⟨{ res with c := (nativeQuery N conn res sql mode).2.2 },
       some (Connection.lastError N ⟨(nativeQuery N conn res sql mode).2.1, false⟩ sql).1,
       ⟨(nativeQuery N conn res sql mode).2.1, false⟩,
       queryCall conn sql mode ::
         (Connection.lastError N ⟨(nativeQuery N conn res sql mode).2.1, false⟩ sql).2⟩ := by
  simp [Connection.execute, Connection.IsClosed, h, hq]

/-- C7. On an open connection, when the native execute succeeds `Execute`
returns no error and a Result whose RowsAffected and InsertId are the counters
the native handle holds after the call and whose back-reference is the
connection; when the native execute fails, `Execute` returns no Result and the
mapped error, which carries the statement text. -/
theorem Execute_result (N : Native) (conn : Connection) (sql : String)
    (hopen : conn.IsClosed = false) :
    ((nativeQuery N conn Result.zero sql OUR_MODE.OUR_MODE_NON).1 = 0 →
      (conn.Execute N sql).err = none ∧
      (conn.Execute N sql).conn.c =
        (nativeQuery N conn Result.zero sql OUR_MODE.OUR_MODE_NON).2.1 ∧
      ∃ res, (conn.Execute N sql).val = some res ∧
        res.RowsAffected = (conn.Execute N sql).conn.c.affected_rows ∧
        res.InsertId = (conn.Execute N sql).conn.c.insert_id ∧
        res.conn = some (conn.Execute N sql).conn) ∧
    ((nativeQuery N conn Result.zero sql OUR_MODE.OUR_MODE_NON).1 ≠ 0 →
      (conn.Execute N sql).val = none ∧
      (conn.Execute N sql).err = some ((conn.Execute N sql).conn.lastError N sql).1 ∧
      ∃ e, (conn.Execute N sql).err = some e ∧ e.Query = sql) := by
  have hc : conn.closed = false := hopen
  constructor
  · intro hq
    have e := execute_ok N conn sql OUR_MODE.OUR_MODE_NON Result.zero hc hq
    simp only [Connection.Execute, e]
    simp
  · intro hq
    have e := execute_failed N conn sql OUR_MODE.OUR_MODE_NON Result.zero hc hq
    simp only [Connection.Execute, e]
    simp [lastError_query]

/-- Instances of C7: "UPDATE t SET x=1" reporting affected-rows 3 and insert-id
0, and a statement the server rejects with errno 1064. -/
theorem Execute_result_witness :
    openConn.IsClosed = false ∧
    (∃ res, (openConn.Execute (StubServer.native ⟨0, 0, "", 0, 3, 0, [], []⟩)
        "UPDATE t SET x=1").val = some res ∧ res.RowsAffected = 3 ∧ res.InsertId = 0) ∧
    (openConn.Execute (StubServer.native ⟨0, 0, "", 0, 3, 0, [], []⟩)
        "UPDATE t SET x=1").err = none ∧
    (openConn.Execute (StubServer.native ⟨0, 1, "Syntax error", 1064, 0, 0, [], []⟩)
        "UPDATE t SET").val = none ∧
    (openConn.Execute (StubServer.native ⟨0, 1, "Syntax error", 1064, 0, 0, [], []⟩)
        "UPDATE t SET").err = some ⟨1064, "Syntax error", "UPDATE t SET"⟩ := by
  have h := (Execute_result (StubServer.native ⟨0, 0, "", 0, 3, 0, [], []⟩) openConn
    "UPDATE t SET x=1" rfl).1 (by decide)
  have g := (Execute_result (StubServer.native ⟨0, 1, "Syntax error", 1064, 0, 0, [], []⟩)
    openConn "UPDATE t SET" rfl).2 (by decide)
  obtain ⟨res, h1, h2, h3, _⟩ := h.2.2
  exact ⟨rfl, ⟨res, h1, h2.trans (by decide), h3.trans (by decide)⟩, h.1, g.1,
    g.2.1.trans (by decide)⟩

/-! ## Query dispatch -/

/-- When `execute` fails, `query` passes its error on. -/
lemma query_of_execute_err (N : Native) (conn : Connection) (sql : String) (mode : OUR_MODE)
    (res : _QueryResult) (maxrows : Int) (wantFields : Bool) (e : SqlError)
    (h : (conn.execute N sql mode res.Result).err = some e) :
    conn.query N sql mode res maxrows wantFields =
      ⟨{ res with Result := (conn.execute N sql mode res.Result).val }, some e,
        (conn.execute N sql mode res.Result).conn, (conn.execute N sql mode res.Result).calls⟩ := by
  simp [Connection.query, h]

/-- When `execute` succeeds and the result has no columns, `query` returns at
once. -/
lemma query_of_no_columns (N : Native) (conn : Connection) (sql : String) (mode : OUR_MODE)
    (res : _QueryResult) (maxrows : Int) (wantFields : Bool)
    (h : (conn.execute N sql mode res.Result).err = none)
    (hz : (conn.execute N sql mode res.Result).val.c.num_fields = 0) :
    conn.query N sql mode res maxrows wantFields =
      ⟨{ res with Result := (conn.execute N sql mode res.Result).val }, none,
        (conn.execute N sql mode res.Result).conn, (conn.execute N sql mode res.Result).calls⟩ := by
  simp [Connection.query, h, hz]

/-- When `execute` succeeds, the result has columns and the row count is above
a positive ceiling, `query` fails with the row-count error. -/
lemma query_of_exceeded (N : Native) (conn : Connection) (sql : String) (mode : OUR_MODE)
    (res : _QueryResult) (maxrows : Int) (wantFields : Bool)
    (h : (conn.execute N sql mode res.Result).err = none)
    (hz : (conn.execute N sql mode res.Result).val.c.num_fields ≠ 0)
    (hm : maxrows > 0)
    (hr : (conn.execute N sql mode res.Result).val.RowsAffected > uint64_of_int maxrows) :
    conn.query N sql mode res maxrows wantFields =
      ⟨{ res with Result := (conn.execute N sql mode res.Result).val },
        some ⟨0, "Row count exceeded " ++ toString maxrows, sql⟩,
        (conn.execute N sql mode res.Result).conn, (conn.execute N sql mode res.Result).calls⟩ := by
  simp [Connection.query, h, hz, hm, hr]

/-- When `execute` succeeds, the result has columns and the ceiling check
passes, `query` fills the field metadata if asked to and returns no error. -/
lemma query_of_within (N : Native) (conn : Connection) (sql : String) (mode : OUR_MODE)
    (res : _QueryResult) (maxrows : Int) (wantFields : Bool)
    (h : (conn.execute N sql mode res.Result).err = none)
    (hz : (conn.execute N sql mode res.Result).val.c.num_fields ≠ 0)
    (hr : ¬ (maxrows > 0 ∧
      (conn.execute N sql mode res.Result).val.RowsAffected > uint64_of_int maxrows)) :
    conn.query N sql mode res maxrows wantFields =
      if wantFields then
        ⟨(_QueryResult.fillFields N
            { res with Result := (conn.execute N sql mode res.Result).val }).1, none,
          (conn.execute N sql mode res.Result).conn,
          (conn.execute N sql mode res.Result).calls ++ (_QueryResult.fillFields N
            { res with Result := (conn.execute N sql mode res.Result).val }).2⟩
      else
        ⟨{ res with Result := (conn.execute N sql mode res.Result).val }, none,
          (conn.execute N sql mode res.Result).conn,
          (conn.execute N sql mode res.Result).calls⟩ := by
  unfold Connection.query
  simp only [h, hz, hr, if_false]

/-- For a positive Go `int`, the conversion to `uint64` keeps the value. -/
lemma uint64_of_int_pos (m : Int) (h0 : 0 < m) (h1 : m < 2 ^ 63) :
    (uint64_of_int m : Int) = m := by
  unfold uint64_of_int
  have h2 : m % 2 ^ 64 = m := Int.emod_eq_of_lt (le_of_lt h0) (by omega)
  rw [h2]
  exact Int.toNat_of_nonneg (le_of_lt h0)

/-! ## Statements on a closed connection -/

/-- C1. On a closed connection, `Execute`, `QuerySet` and `QueryReader` each
return a nil result and the error SqlError(2006, "Connection is closed", ""),
leave the connection as it is and make no native call. -/
theorem closed_fails_fast (N : Native) (conn : Connection) (sql : String) (maxrows : Int)
    (wantFields : Bool) (h : conn.IsClosed = true) :
    conn.Execute N sql = ⟨none, some ⟨2006, "Connection is closed", ""⟩, conn, []⟩ ∧
    conn.QuerySet N sql maxrows wantFields =
      ⟨none, some ⟨2006, "Connection is closed", ""⟩, conn, []⟩ ∧
    conn.QueryReader N sql maxrows wantFields =
      ⟨none, some ⟨2006, "Connection is closed", ""⟩, conn, []⟩ := by
  have hc : conn.closed = true := h
  have hx : ∀ mode res, conn.execute N sql mode res = ⟨res, some connectionClosed, conn, []⟩ :=
    fun mode res => execute_closed N conn sql mode res hc
  have hq : ∀ mode res, conn.query N sql mode res maxrows wantFields =
      ⟨res, some connectionClosed, conn, []⟩ := by
    intro mode res
    rw [query_of_execute_err N conn sql mode res maxrows wantFields connectionClosed
      (by rw [hx])]
    simp [hx]
  refine ⟨?_, ?_, ?_⟩
  · simp [Connection.Execute, hx, connectionClosed]
  · simp [Connection.QuerySet, hq, connectionClosed]
  · simp [Connection.QueryReader, hq, connectionClosed]

/-- An instance of C1: a connection that was open and on which `Close` has
been called; the stub server would have answered every statement. -/
theorem closed_fails_fast_witness :
    (openConn.Close (StubServer.native ⟨0, 0, "", 0, 1, 0, [], []⟩)).1.IsClosed = true ∧
    ((openConn.Close (StubServer.native ⟨0, 0, "", 0, 1, 0, [], []⟩)).1.Execute
      (StubServer.native ⟨0, 0, "", 0, 1, 0, [], []⟩) "DELETE FROM t").calls = [] ∧
    ((openConn.Close (StubServer.native ⟨0, 0, "", 0, 1, 0, [], []⟩)).1.QuerySet
      (StubServer.native ⟨0, 0, "", 0, 1, 0, [], []⟩) "SELECT 1" 10 true).err =
        some ⟨2006, "Connection is closed", ""⟩ ∧
    ((openConn.Close (StubServer.native ⟨0, 0, "", 0, 1, 0, [], []⟩)).1.QueryReader
      (StubServer.native ⟨0, 0, "", 0, 1, 0, [], []⟩) "SELECT 1" 10 true).val = none := by
  have h := closed_fails_fast (StubServer.native ⟨0, 0, "", 0, 1, 0, [], []⟩)
    (openConn.Close (StubServer.native ⟨0, 0, "", 0, 1, 0, [], []⟩)).1 "DELETE FROM t" 10 true rfl
  have g := closed_fails_fast (StubServer.native ⟨0, 0, "", 0, 1, 0, [], []⟩)
    (openConn.Close (StubServer.native ⟨0, 0, "", 0, 1, 0, [], []⟩)).1 "SELECT 1" 10 true rfl
  exact ⟨rfl, by rw [h.1], by rw [g.2.1], by rw [g.2.2]⟩

/-! ## Buffered and streaming queries in terms of the dispatch -/

/-- When the dispatch fails, `QuerySet` returns no set and its error. -/
lemma QuerySet_of_query_err (N : Native) (conn : Connection) (sql : String) (maxrows : Int)
    (wantFields : Bool) (e : SqlError)
    (h : (conn.query N sql OUR_MODE.OUR_MODE_SET _QueryResult.zero maxrows wantFields).err =
      some e) :
    conn.QuerySet N sql maxrows wantFields =
      ⟨none, some e,
        (conn.query N sql OUR_MODE.OUR_MODE_SET _QueryResult.zero maxrows wantFields).conn,
        (conn.query N sql OUR_MODE.OUR_MODE_SET _QueryResult.zero maxrows wantFields).calls⟩ := by
  simp [Connection.QuerySet, h]

/-- When the dispatch succeeds and every fetch succeeds, `QuerySet` returns the
set with the rows pulled, its cursor released. -/
lemma QuerySet_of_rows (N : Native) (conn : Connection) (sql : String) (maxrows : Int)
    (wantFields : Bool) (rows : List (List String))
    (h : (conn.query N sql OUR_MODE.OUR_MODE_SET _QueryResult.zero maxrows wantFields).err = none)
    (hp : pullRows (conn.query N sql OUR_MODE.OUR_MODE_SET _QueryResult.zero maxrows
      wantFields).val.Result.c.cursor = some rows) :
    (conn.QuerySet N sql maxrows wantFields).val = some (DataSet.close N
      ⟨(conn.query N sql OUR_MODE.OUR_MODE_SET _QueryResult.zero maxrows wantFields).val,
        rows⟩).1 ∧
    (conn.QuerySet N sql maxrows wantFields).err = none ∧
    (conn.QuerySet N sql maxrows wantFields).calls =
      (conn.query N sql OUR_MODE.OUR_MODE_SET _QueryResult.zero maxrows wantFields).calls ++
        List.replicate (pullCalls (conn.query N sql OUR_MODE.OUR_MODE_SET _QueryResult.zero
          maxrows wantFields).val.Result.c.cursor) NativeCall.our_fetch_row ++
        [NativeCall.our_free_result] := by
  simp [Connection.QuerySet, h, DataSet.fillRows, hp, DataSet.close]

/-- When the dispatch succeeds and a fetch fails, `QuerySet` returns no set and
the mapped error of the connection the result refers back to. -/
lemma QuerySet_of_fetch_failure (N : Native) (conn : Connection) (sql : String)
    (maxrows : Int) (wantFields : Bool)
    (h : (conn.query N sql OUR_MODE.OUR_MODE_SET _QueryResult.zero maxrows wantFields).err = none)
    (hp : pullRows (conn.query N sql OUR_MODE.OUR_MODE_SET _QueryResult.zero maxrows
      wantFields).val.Result.c.cursor = none) :
    (conn.QuerySet N sql maxrows wantFields).val = none ∧
    (conn.QuerySet N sql maxrows wantFields).err = some (Connection.lastError N
      ((conn.query N sql OUR_MODE.OUR_MODE_SET _QueryResult.zero maxrows
        wantFields).val.Result.conn.getD { c := MYSQL.zero, closed := false }) "").1 := by
  simp [Connection.QuerySet, h, DataSet.fillRows, hp]

/-- `QueryReader` returns the dispatch's error, or else a reader holding what
the dispatch filled in. -/
lemma QueryReader_eq (N : Native) (conn : Connection) (sql : String) (maxrows : Int)
    (wantFields : Bool) :
    conn.QueryReader N sql maxrows wantFields =
      ⟨match (conn.query N sql OUR_MODE.OUR_MODE_READER _QueryResult.zero maxrows
            wantFields).err with
        | some _ => none
        | none => some ⟨(conn.query N sql OUR_MODE.OUR_MODE_READER _QueryResult.zero maxrows
            wantFields).val⟩,
        (conn.query N sql OUR_MODE.OUR_MODE_READER _QueryResult.zero maxrows wantFields).err,
        (conn.query N sql OUR_MODE.OUR_MODE_READER _QueryResult.zero maxrows wantFields).conn,
        (conn.query N sql OUR_MODE.OUR_MODE_READER _QueryResult.zero maxrows
          wantFields).calls⟩ := by
  simp only [Connection.QueryReader, zero_DataReader_QueryResult]
  generalize conn.query N sql OUR_MODE.OUR_MODE_READER _QueryResult.zero maxrows wantFields = q
  rcases q with ⟨v, e, c, cs⟩
  cases e <;> rfl

/-- The dispatch on an open connection whose native execute succeeds with a
result of at least one column and a row count above a positive ceiling. -/
lemma query_exceeded (N : Native) (conn : Connection) (sql : String) (mode : OUR_MODE)
    (res : _QueryResult) (maxrows : Int) (wantFields : Bool) (hopen : conn.closed = false)
    (hm0 : 0 < maxrows) (hm1 : maxrows < 2 ^ 63)
    (hq : (nativeQuery N conn res.Result sql mode).1 = 0)
    (hz : 0 < (nativeQuery N conn res.Result sql mode).2.2.num_fields)
    (hr : maxrows < ((nativeQuery N conn res.Result sql mode).2.1.affected_rows : Int)) :
    (conn.query N sql mode res maxrows wantFields).err =
      some ⟨0, "Row count exceeded " ++ toString maxrows, sql⟩ := by
  have e := execute_ok N conn sql mode res.Result hopen hq
  have hu := uint64_of_int_pos maxrows hm0 hm1
  have hlt : uint64_of_int maxrows < (nativeQuery N conn res.Result sql mode).2.1.affected_rows := by
    omega
  rw [query_of_exceeded N conn sql mode res maxrows wantFields (by rw [e])
    (by rw [e]; exact Nat.pos_iff_ne_zero.mp hz) hm0 (by rw [e]; exact hlt)]

/-! ## The row-count error -/

/-- C3. On an open connection, for a ceiling `maxrows > 0` (a Go `int`), when
the native execute succeeds reporting at least one column and a row count
above `maxrows`, `QuerySet` and `QueryReader` both return no result and the
error with code 0, message "Row count exceeded " followed by `maxrows` in
decimal, and the statement text. -/
theorem row_limit_error (N : Native) (conn : Connection) (sql : String) (maxrows : Int)
    (wantFields : Bool) (hopen : conn.IsClosed = false) (hm0 : 0 < maxrows)
    (hm1 : maxrows < 2 ^ 63) :
    ((nativeQuery N conn Result.zero sql OUR_MODE.OUR_MODE_SET).1 = 0 →
      0 < (nativeQuery N conn Result.zero sql OUR_MODE.OUR_MODE_SET).2.2.num_fields →
      maxrows < ((nativeQuery N conn Result.zero sql OUR_MODE.OUR_MODE_SET).2.1.affected_rows
        : Int) →
      (conn.QuerySet N sql maxrows wantFields).val = none ∧
      (conn.QuerySet N sql maxrows wantFields).err =
        some ⟨0, "Row count exceeded " ++ toString maxrows, sql⟩) ∧
    ((nativeQuery N conn Result.zero sql OUR_MODE.OUR_MODE_READER).1 = 0 →
      0 < (nativeQuery N conn Result.zero sql OUR_MODE.OUR_MODE_READER).2.2.num_fields →
      maxrows < ((nativeQuery N conn Result.zero sql OUR_MODE.OUR_MODE_READER).2.1.affected_rows
        : Int) →
      (conn.QueryReader N sql maxrows wantFields).val = none ∧
      (conn.QueryReader N sql maxrows wantFields).err =
        some ⟨0, "Row count exceeded " ++ toString maxrows, sql⟩) ∧
    toString maxrows = (Nat.toDigits 10 maxrows.toNat).asString := by
  refine ⟨?_, ?_, ?_⟩
  · intro hq hz hr
    have h := query_exceeded N conn sql OUR_MODE.OUR_MODE_SET _QueryResult.zero maxrows
      wantFields hopen hm0 hm1 hq hz hr
    rw [QuerySet_of_query_err N conn sql maxrows wantFields _ h]
    exact ⟨rfl, rfl⟩
  · intro hq hz hr
    have h := query_exceeded N conn sql OUR_MODE.OUR_MODE_READER _QueryResult.zero maxrows
      wantFields hopen hm0 hm1 hq hz hr
    rw [QueryReader_eq, h]
    exact ⟨rfl, rfl⟩
  · obtain ⟨k, rfl⟩ := Int.eq_ofNat_of_zero_le (le_of_lt hm0)
    rfl

/-- An instance of C3: "SELECT * FROM t" with ceiling 2 against a server
reporting one column and 5 rows. -/
theorem row_limit_error_witness :
    (openConn.QuerySet (StubServer.native ⟨0, 0, "", 0, 5, 0, [⟨"id", 3⟩], []⟩)
      "SELECT * FROM t" 2 false).err = some ⟨0, "Row count exceeded 2", "SELECT * FROM t"⟩ ∧
    (openConn.QuerySet (StubServer.native ⟨0, 0, "", 0, 5, 0, [⟨"id", 3⟩], []⟩)
      "SELECT * FROM t" 2 false).val = none ∧
    (openConn.QueryReader (StubServer.native ⟨0, 0, "", 0, 5, 0, [⟨"id", 3⟩], []⟩)
      "SELECT * FROM t" 2 false).err = some ⟨0, "Row count exceeded 2", "SELECT * FROM t"⟩ ∧
    (openConn.QueryReader (StubServer.native ⟨0, 0, "", 0, 5, 0, [⟨"id", 3⟩], []⟩)
      "SELECT * FROM t" 2 false).val = none := by
  have h := row_limit_error (StubServer.native ⟨0, 0, "", 0, 5, 0, [⟨"id", 3⟩], []⟩) openConn
    "SELECT * FROM t" 2 false rfl (by decide) (by decide)
  have a := h.1 (by decide) (by decide) (by decide)
  have b := h.2.1 (by decide) (by decide) (by decide)
  exact ⟨a.2.trans (by decide), a.1, b.2.trans (by decide), b.1⟩

/-! ## Statements that produce no row set -/

/-- The dispatch on an open connection whose native execute succeeds with a
result of zero columns. -/
lemma query_no_columns (N : Native) (conn : Connection) (sql : String) (mode : OUR_MODE)
    (res : _QueryResult) (maxrows : Int) (wantFields : Bool) (hopen : conn.closed = false)
    (hq : (nativeQuery N conn res.Result sql mode).1 = 0)
    (hz : (nativeQuery N conn res.Result sql mode).2.2.num_fields = 0) :
    conn.query N sql mode res maxrows wantFields =
      ⟨{ res with Result :=
          { c := (nativeQuery N conn res.Result sql mode).2.2,
            conn := some ⟨(nativeQuery N conn res.Result sql mode).2.1, false⟩,
            RowsAffected := (nativeQuery N conn res.Result sql mode).2.1.affected_rows,
            InsertId := (nativeQuery N conn res.Result sql mode).2.1.insert_id } },
        none, ⟨(nativeQuery N conn res.Result sql mode).2.1, false⟩,
        [queryCall conn sql mode]⟩ := by
  have e := execute_ok N conn sql mode res.Result hopen hq
  rw [query_of_no_columns N conn sql mode res maxrows wantFields (by rw [e])
    (by rw [e]; exact hz), e]

/-- C10. On an open connection, when the native execute succeeds and the
native result reports zero columns, the query dispatch returns without error
with the two counters filled in from the native handle: whatever `maxrows` and
`wantFields` are, no row-count error is produced, the field metadata is left as
it was and the only native call is the execute. Hence `QueryReader` returns a
reader with the counters and no field metadata. -/
theorem query_zero_columns (N : Native) (conn : Connection) (sql : String) (maxrows : Int)
    (wantFields : Bool) (hopen : conn.IsClosed = false) :
    (∀ (mode : OUR_MODE) (res : _QueryResult),
      (nativeQuery N conn res.Result sql mode).1 = 0 →
      (nativeQuery N conn res.Result sql mode).2.2.num_fields = 0 →
      (conn.query N sql mode res maxrows wantFields).err = none ∧
      (conn.query N sql mode res maxrows wantFields).val.Fields = res.Fields ∧
      (conn.query N sql mode res maxrows wantFields).val.Result.RowsAffected =
        (nativeQuery N conn res.Result sql mode).2.1.affected_rows ∧
      (conn.query N sql mode res maxrows wantFields).val.Result.InsertId =
        (nativeQuery N conn res.Result sql mode).2.1.insert_id ∧
      (conn.query N sql mode res maxrows wantFields).calls = [queryCall conn sql mode]) ∧
    ((nativeQuery N conn Result.zero sql OUR_MODE.OUR_MODE_READER).1 = 0 →
      (nativeQuery N conn Result.zero sql OUR_MODE.OUR_MODE_READER).2.2.num_fields = 0 →
      (conn.QueryReader N sql maxrows wantFields).err = none ∧
      (conn.QueryReader N sql maxrows wantFields).calls =
        [queryCall conn sql OUR_MODE.OUR_MODE_READER] ∧
      ∃ rd, (conn.QueryReader N sql maxrows wantFields).val = some rd ∧
        rd._QueryResult.Fields = [] ∧
        rd._QueryResult.Result.RowsAffected =
          (nativeQuery N conn Result.zero sql OUR_MODE.OUR_MODE_READER).2.1.affected_rows ∧
        rd._QueryResult.Result.InsertId =
          (nativeQuery N conn Result.zero sql OUR_MODE.OUR_MODE_READER).2.1.insert_id) := by
  have hc : conn.closed = false := hopen
  refine ⟨?_, ?_⟩
  · intro mode res hq hz
    rw [query_no_columns N conn sql mode res maxrows wantFields hc hq hz]
    exact ⟨rfl, rfl, rfl, rfl, rfl⟩
  · intro hq hz
    have e := query_no_columns N conn sql OUR_MODE.OUR_MODE_READER _QueryResult.zero maxrows
      wantFields hc hq hz
    rw [QueryReader_eq, e]
    exact ⟨rfl, rfl, _, rfl, rfl, rfl, rfl⟩

/-- An instance of C10: an UPDATE through the dispatch and through
`QueryReader` with ceiling 2 and field metadata asked for, against a server
reporting zero columns and 5 affected rows. -/
theorem query_zero_columns_witness :
    openConn.IsClosed = false ∧
    (openConn.QueryReader (StubServer.native ⟨0, 0, "", 0, 5, 9, [], []⟩)
      "UPDATE t SET x=1" 2 true).err = none ∧
    (∃ rd, (openConn.QueryReader (StubServer.native ⟨0, 0, "", 0, 5, 9, [], []⟩)
      "UPDATE t SET x=1" 2 true).val = some rd ∧ rd._QueryResult.Fields = [] ∧
      rd._QueryResult.Result.RowsAffected = 5 ∧ rd._QueryResult.Result.InsertId = 9) ∧
    (openConn.query (StubServer.native ⟨0, 0, "", 0, 5, 9, [], []⟩)
      "UPDATE t SET x=1" OUR_MODE.OUR_MODE_SET _QueryResult.zero 2 true).err = none := by
  have h := query_zero_columns (StubServer.native ⟨0, 0, "", 0, 5, 9, [], []⟩) openConn
    "UPDATE t SET x=1" 2 true rfl
  have a := h.2 (by decide) (by decide)
  have b := h.1 OUR_MODE.OUR_MODE_SET _QueryResult.zero (by decide) (by decide)
  obtain ⟨rd, r1, r2, r3, r4⟩ := a.2.2
  exact ⟨rfl, a.1, ⟨rd, r1, r2, r3.trans (by decide), r4.trans (by decide)⟩, b.1⟩

/-! ## The row-count ceiling of a buffered query -/

/-- Pulling a cursor delivers at most as many rows as the cursor holds. -/
lemma pullRows_length (cur : List Fetched) (rows : List (List String))
    (h : pullRows cur = some rows) : rows.length = cur.length := by
  induction cur generalizing rows with
  | nil =>
    simp [pullRows] at h
    simp [← h]
  | cons f rest ih =>
    cases f with
    | row values =>
      simp only [pullRows] at h
      cases hp : pullRows rest with
      | none => simp [hp] at h
      | some rs =>
        simp [hp] at h
        simp [← h, ih rs hp]
    | failure => simp [pullRows] at h

/-- The dispatch on an open connection whose native execute succeeds, when the
row-count check does not fire: no error, and the counters filled in. -/
lemma query_passes (N : Native) (conn : Connection) (sql : String) (mode : OUR_MODE)
    (res : _QueryResult) (maxrows : Int) (wantFields : Bool) (hopen : conn.closed = false)
    (hq : (nativeQuery N conn res.Result sql mode).1 = 0)
    (hne : ¬ ((nativeQuery N conn res.Result sql mode).2.2.num_fields ≠ 0 ∧ maxrows > 0 ∧
      (nativeQuery N conn res.Result sql mode).2.1.affected_rows > uint64_of_int maxrows)) :
    (conn.query N sql mode res maxrows wantFields).err = none ∧
    (conn.query N sql mode res maxrows wantFields).conn =
      ⟨(nativeQuery N conn res.Result sql mode).2.1, false⟩ ∧
    (conn.query N sql mode res maxrows wantFields).val.Result =
      { c := (nativeQuery N conn res.Result sql mode).2.2,
        conn := some ⟨(nativeQuery N conn res.Result sql mode).2.1, false⟩,
        RowsAffected := (nativeQuery N conn res.Result sql mode).2.1.affected_rows,
        InsertId := (nativeQuery N conn res.Result sql mode).2.1.insert_id } := by
  by_cases hz : (nativeQuery N conn res.Result sql mode).2.2.num_fields = 0
  · rw [query_no_columns N conn sql mode res maxrows wantFields hopen hq hz]
    exact ⟨rfl, rfl, rfl⟩
  · have e := execute_ok N conn sql mode res.Result hopen hq
    have hr : ¬ (maxrows > 0 ∧
        (conn.execute N sql mode res.Result).val.RowsAffected > uint64_of_int maxrows) := by
      rw [e]
      exact fun h => hne ⟨hz, h.1, h.2⟩
    rw [query_of_within N conn sql mode res maxrows wantFields (by rw [e])
      (by rw [e]; exact hz) hr, e]
    cases wantFields <;> exact ⟨rfl, rfl, rfl⟩

/-- `QuerySet` on an open connection whose native execute succeeds, when the
row-count check does not fire: the rows of the cursor are pulled. -/
lemma QuerySet_passes (N : Native) (conn : Connection) (sql : String) (maxrows : Int)
    (wantFields : Bool) (hopen : conn.closed = false)
    (hq : (nativeQuery N conn Result.zero sql OUR_MODE.OUR_MODE_SET).1 = 0)
    (hne : ¬ ((nativeQuery N conn Result.zero sql OUR_MODE.OUR_MODE_SET).2.2.num_fields ≠ 0 ∧
      maxrows > 0 ∧
      (nativeQuery N conn Result.zero sql OUR_MODE.OUR_MODE_SET).2.1.affected_rows >
        uint64_of_int maxrows)) :
    (∀ rows, pullRows (nativeQuery N conn Result.zero sql OUR_MODE.OUR_MODE_SET).2.2.cursor =
        some rows →
      (conn.QuerySet N sql maxrows wantFields).err = none ∧
      ∃ ds, (conn.QuerySet N sql maxrows wantFields).val = some ds ∧ ds.Rows = rows ∧
        ds._QueryResult.Result.RowsAffected =
          (nativeQuery N conn Result.zero sql OUR_MODE.OUR_MODE_SET).2.1.affected_rows) ∧
    (pullRows (nativeQuery N conn Result.zero sql OUR_MODE.OUR_MODE_SET).2.2.cursor = none →
      (conn.QuerySet N sql maxrows wantFields).val = none ∧
      (conn.QuerySet N sql maxrows wantFields).err = some (Connection.lastError N
        ⟨(nativeQuery N conn Result.zero sql OUR_MODE.OUR_MODE_SET).2.1, false⟩ "").1) := by
  obtain ⟨h1, _, h3⟩ := query_passes N conn sql OUR_MODE.OUR_MODE_SET _QueryResult.zero maxrows
    wantFields hopen hq hne
  constructor
  · intro rows hp
    have h := QuerySet_of_rows N conn sql maxrows wantFields rows h1 (by rw [h3]; exact hp)
    refine ⟨h.2.1, _, h.1, rfl, ?_⟩
    simp [DataSet.close, h3]
  · intro hp
    have h := QuerySet_of_fetch_failure N conn sql maxrows wantFields h1 (by rw [h3]; exact hp)
    rw [h3] at h
    exact h

/-- The connection `QuerySet` leaves is the one the dispatch leaves. -/
lemma QuerySet_conn (N : Native) (conn : Connection) (sql : String) (maxrows : Int)
    (wantFields : Bool) :
    (conn.QuerySet N sql maxrows wantFields).conn =
      (conn.query N sql OUR_MODE.OUR_MODE_SET _QueryResult.zero maxrows wantFields).conn := by
  simp only [Connection.QuerySet]
  split
  · rfl
  · split <;> rfl

/-- `QuerySet` on a closed connection. -/
lemma QuerySet_closed (N : Native) (conn : Connection) (sql : String) (maxrows : Int)
    (wantFields : Bool) (h : conn.closed = true) :
    conn.QuerySet N sql maxrows wantFields = ⟨none, some connectionClosed, conn, []⟩ := by
  have hx := execute_closed N conn sql OUR_MODE.OUR_MODE_SET _QueryResult.zero.Result h
  have hq := query_of_execute_err N conn sql OUR_MODE.OUR_MODE_SET _QueryResult.zero maxrows
    wantFields connectionClosed (by rw [hx])
  rw [QuerySet_of_query_err N conn sql maxrows wantFields connectionClosed (by rw [hq]), hq, hx]

/-- `QuerySet` on an open connection whose native execute fails. -/
lemma QuerySet_failed (N : Native) (conn : Connection) (sql : String) (maxrows : Int)
    (wantFields : Bool) (hopen : conn.closed = false)
    (hq : (nativeQuery N conn Result.zero sql OUR_MODE.OUR_MODE_SET).1 ≠ 0) :
    (conn.QuerySet N sql maxrows wantFields).val = none ∧
    (conn.QuerySet N sql maxrows wantFields).err = some (Connection.lastError N
      ⟨(nativeQuery N conn Result.zero sql OUR_MODE.OUR_MODE_SET).2.1, false⟩ sql).1 ∧
    (conn.QuerySet N sql maxrows wantFields).conn =
      ⟨(nativeQuery N conn Result.zero sql OUR_MODE.OUR_MODE_SET).2.1, false⟩ := by
  have hx := execute_failed N conn sql OUR_MODE.OUR_MODE_SET _QueryResult.zero.Result hopen hq
  have hqe := query_of_execute_err N conn sql OUR_MODE.OUR_MODE_SET _QueryResult.zero maxrows
    wantFields _ (by rw [hx])
  rw [QuerySet_of_query_err N conn sql maxrows wantFields _ (by rw [hqe]), hqe, hx]
  exact ⟨rfl, rfl, rfl⟩

/-- With a ceiling of 0 the dispatch adds no failure of its own: its error is
the error of `execute`, whatever row count was reported. -/
lemma query_err_no_ceiling (N : Native) (conn : Connection) (sql : String) (mode : OUR_MODE)
    (res : _QueryResult) (wantFields : Bool) :
    (conn.query N sql mode res 0 wantFields).err = (conn.execute N sql mode res.Result).err := by
  simp only [Connection.query]
  rcases conn.execute N sql mode res.Result with ⟨v, e, c, cs⟩
  cases e with
  | some err => rfl
  | none =>
    by_cases hz : v.c.num_fields = 0
    · simp [hz]
    · cases wantFields <;> simp [hz]

/-- C2, as the code has it. For a ceiling `maxrows` that is a Go `int`:
(a) when `maxrows > 0`, the native result reports at least one column and
`QuerySet` returns a set, it returns no error, the row count reported for the
set (its RowsAffected counter) is at most `maxrows`, and the set holds at most
`maxrows` rows provided the native cursor delivers no more rows than the
reported row count;
(b) when `maxrows > 0` and the native execute succeeds on an open connection
reporting at least one column and a row count above `maxrows`, `QuerySet`
returns no set and the row-count error;
(c) when `maxrows` is 0 the call never fails with the row-count error, the
error of the ceiling check of the dispatch (`conn.go:128-130`), whatever the
reported row count: the dispatch returns exactly the error of `execute`, every
error `QuerySet` returns is the error of `execute` or of pulling the rows (so
the closed-connection error or one mapped from the native last error), and if
the native execute and every fetch succeed it returns the set. -/
theorem QuerySet_row_limit (N : Native) (conn : Connection) (sql : String) (maxrows : Int)
    (wantFields : Bool) (hm1 : maxrows < 2 ^ 63) :
    (0 < maxrows →
      0 < (nativeQuery N conn Result.zero sql OUR_MODE.OUR_MODE_SET).2.2.num_fields →
      ∀ ds, (conn.QuerySet N sql maxrows wantFields).val = some ds →
        (conn.QuerySet N sql maxrows wantFields).err = none ∧
        (ds._QueryResult.Result.RowsAffected : Int) ≤ maxrows ∧
        ((nativeQuery N conn Result.zero sql OUR_MODE.OUR_MODE_SET).2.2.cursor.length ≤
            (nativeQuery N conn Result.zero sql OUR_MODE.OUR_MODE_SET).2.1.affected_rows →
          (ds.Rows.length : Int) ≤ maxrows)) ∧
    (0 < maxrows → conn.IsClosed = false →
      (nativeQuery N conn Result.zero sql OUR_MODE.OUR_MODE_SET).1 = 0 →
      0 < (nativeQuery N conn Result.zero sql OUR_MODE.OUR_MODE_SET).2.2.num_fields →
      maxrows < ((nativeQuery N conn Result.zero sql OUR_MODE.OUR_MODE_SET).2.1.affected_rows
        : Int) →
      (conn.QuerySet N sql maxrows wantFields).val = none ∧
      (conn.QuerySet N sql maxrows wantFields).err =
        some ⟨0, "Row count exceeded " ++ toString maxrows, sql⟩) ∧
    (∀ (mode : OUR_MODE) (res : _QueryResult),
      (conn.query N sql mode res 0 wantFields).err =
        (conn.execute N sql mode res.Result).err) ∧
    (∀ e, (conn.QuerySet N sql 0 wantFields).err = some e →
      (conn.execute N sql OUR_MODE.OUR_MODE_SET Result.zero).err = some e ∨
      ((conn.execute N sql OUR_MODE.OUR_MODE_SET Result.zero).err = none ∧
        (DataSet.fillRows N
          ⟨(conn.query N sql OUR_MODE.OUR_MODE_SET _QueryResult.zero 0 wantFields).val,
            []⟩).1 = some e)) ∧
    (∀ e, (conn.QuerySet N sql 0 wantFields).err = some e →
      e = ⟨2006, "Connection is closed", ""⟩ ∨
      e = ((conn.QuerySet N sql 0 wantFields).conn.lastError N sql).1 ∨
      e = ((conn.QuerySet N sql 0 wantFields).conn.lastError N "").1) ∧
    (conn.IsClosed = false →
      (nativeQuery N conn Result.zero sql OUR_MODE.OUR_MODE_SET).1 = 0 →
      ∀ rows, pullRows (nativeQuery N conn Result.zero sql OUR_MODE.OUR_MODE_SET).2.2.cursor =
          some rows →
        (conn.QuerySet N sql 0 wantFields).err = none ∧
        ∃ ds, (conn.QuerySet N sql 0 wantFields).val = some ds ∧ ds.Rows = rows ∧
          ds._QueryResult.Result.RowsAffected =
            (nativeQuery N conn Result.zero sql OUR_MODE.OUR_MODE_SET).2.1.affected_rows) := by
  have hzero : ¬ ((nativeQuery N conn Result.zero sql OUR_MODE.OUR_MODE_SET).2.2.num_fields ≠ 0 ∧
      (0 : Int) > 0 ∧
      (nativeQuery N conn Result.zero sql OUR_MODE.OUR_MODE_SET).2.1.affected_rows >
        uint64_of_int 0) := fun h => absurd h.2.1 (by decide)
  refine ⟨?_, ?_, ?_, ?_, ?_, ?_⟩
  · intro hm0 hz ds hv
    have hu := uint64_of_int_pos maxrows hm0 hm1
    by_cases hc : conn.closed = true
    · rw [QuerySet_closed N conn sql maxrows wantFields hc] at hv
      simp at hv
    have hc : conn.closed = false := by simpa using hc
    by_cases hq : (nativeQuery N conn Result.zero sql OUR_MODE.OUR_MODE_SET).1 = 0
    · by_cases hr : (nativeQuery N conn Result.zero sql OUR_MODE.OUR_MODE_SET).2.1.affected_rows >
          uint64_of_int maxrows
      · have h := query_exceeded N conn sql OUR_MODE.OUR_MODE_SET _QueryResult.zero maxrows
          wantFields hc hm0 hm1 hq hz (by rw [zero_QueryResult_Result]; omega)
        rw [QuerySet_of_query_err N conn sql maxrows wantFields _ h] at hv
        simp at hv
      · have hp := QuerySet_passes N conn sql maxrows wantFields hc hq (fun h => hr h.2.2)
        cases hrows : pullRows
            (nativeQuery N conn Result.zero sql OUR_MODE.OUR_MODE_SET).2.2.cursor with
        | none =>
          rw [(hp.2 hrows).1] at hv
          simp at hv
        | some rows =>
          obtain ⟨herr, ds1, hv1, hr1, hr2⟩ := hp.1 rows hrows
          have hds : ds1 = ds := by
            rw [hv1] at hv
            exact Option.some.inj hv
          subst hds
          have hlen := pullRows_length _ _ hrows
          refine ⟨herr, by omega, fun hcur => ?_⟩
          rw [hr1]
          omega
    · rw [(QuerySet_failed N conn sql maxrows wantFields hc hq).1] at hv
      simp at hv
  · intro hm0 hopen hq hz hr
    have h := query_exceeded N conn sql OUR_MODE.OUR_MODE_SET _QueryResult.zero maxrows
      wantFields hopen hm0 hm1 hq hz hr
    rw [QuerySet_of_query_err N conn sql maxrows wantFields _ h]
    exact ⟨rfl, rfl⟩
  · exact fun mode res => query_err_no_ceiling N conn sql mode res wantFields
  · intro e he
    have hx := query_err_no_ceiling N conn sql OUR_MODE.OUR_MODE_SET _QueryResult.zero wantFields
    rw [zero_QueryResult_Result] at hx
    cases hq : (conn.query N sql OUR_MODE.OUR_MODE_SET _QueryResult.zero 0 wantFields).err with
    | some err =>
      rw [QuerySet_of_query_err N conn sql 0 wantFields err hq] at he
      left
      rw [← hx, hq]
      exact he
    | none =>
      right
      refine ⟨by rw [← hx, hq], ?_⟩
      cases hp : pullRows (conn.query N sql OUR_MODE.OUR_MODE_SET _QueryResult.zero 0
          wantFields).val.Result.c.cursor with
      | some rows =>
        rw [(QuerySet_of_rows N conn sql 0 wantFields rows hq hp).2.1] at he
        simp at he
      | none =>
        rw [(QuerySet_of_fetch_failure N conn sql 0 wantFields hq hp).2] at he
        simp only [DataSet.fillRows, hp]
        exact he
  · intro e he
    by_cases hc : conn.closed = true
    · rw [QuerySet_closed N conn sql 0 wantFields hc] at he
      left
      exact (Option.some.inj he).symm
    have hc : conn.closed = false := by simpa using hc
    by_cases hq : (nativeQuery N conn Result.zero sql OUR_MODE.OUR_MODE_SET).1 = 0
    · have hp := QuerySet_passes N conn sql 0 wantFields hc hq hzero
      have hconn := (query_passes N conn sql OUR_MODE.OUR_MODE_SET _QueryResult.zero 0
        wantFields hc hq hzero).2.1
      cases hrows : pullRows
          (nativeQuery N conn Result.zero sql OUR_MODE.OUR_MODE_SET).2.2.cursor with
      | none =>
        right; right
        rw [(hp.2 hrows).2] at he
        rw [QuerySet_conn, hconn]
        exact (Option.some.inj he).symm
      | some rows =>
        rw [(hp.1 rows hrows).1] at he
        simp at he
    · have hf := QuerySet_failed N conn sql 0 wantFields hc hq
      right; left
      rw [hf.2.1] at he
      rw [hf.2.2]
      exact (Option.some.inj he).symm
  · intro hopen hq rows hrows
    exact (QuerySet_passes N conn sql 0 wantFields hopen hq hzero).1 rows hrows

/-- C2 as stated fails, at two inputs on an open connection with ceiling 2.
First, an UPDATE through `QuerySet` against a server reporting zero columns and
a row count of 5: the reported row count is above the ceiling, yet the dispatch
returns no error, and the call returns no error and a set (holding no rows)
whose RowsAffected counter is 5. Second, a SELECT against a server reporting
one column and a row count of 2 whose cursor delivers 5 rows: the call returns
a set that holds 5 rows. -/
theorem QuerySet_row_limit_counterexample :
    openConn.IsClosed = false ∧ (0 : Int) < 2 ∧
    (nativeQuery (StubServer.native ⟨0, 0, "", 0, 5, 0, [], []⟩) openConn Result.zero
      "UPDATE t SET x=1" OUR_MODE.OUR_MODE_SET).1 = 0 ∧
    (nativeQuery (StubServer.native ⟨0, 0, "", 0, 5, 0, [], []⟩) openConn Result.zero
      "UPDATE t SET x=1" OUR_MODE.OUR_MODE_SET).2.1.affected_rows = 5 ∧
    (openConn.query (StubServer.native ⟨0, 0, "", 0, 5, 0, [], []⟩)
      "UPDATE t SET x=1" OUR_MODE.OUR_MODE_SET _QueryResult.zero 2 false).err = none ∧
    (openConn.QuerySet (StubServer.native ⟨0, 0, "", 0, 5, 0, [], []⟩)
      "UPDATE t SET x=1" 2 false).err = none ∧
    ((openConn.QuerySet (StubServer.native ⟨0, 0, "", 0, 5, 0, [], []⟩)
      "UPDATE t SET x=1" 2 false).val.map
        (fun ds => (ds._QueryResult.Result.RowsAffected, ds.Rows.length))) = some (5, 0) ∧
    ¬ ((openConn.QuerySet (StubServer.native ⟨0, 0, "", 0, 5, 0, [], []⟩)
      "UPDATE t SET x=1" 2 false).val = none ∧
      (openConn.QuerySet (StubServer.native ⟨0, 0, "", 0, 5, 0, [], []⟩)
        "UPDATE t SET x=1" 2 false).err =
          some ⟨0, "Row count exceeded 2", "UPDATE t SET x=1"⟩) ∧
    (openConn.QuerySet (StubServer.native ⟨0, 0, "", 0, 2, 0, [⟨"id", 3⟩],
      [Fetched.row ["1"], Fetched.row ["2"], Fetched.row ["3"], Fetched.row ["4"],
        Fetched.row ["5"]]⟩) "SELECT id FROM t" 2 false).err = none ∧
    ((openConn.QuerySet (StubServer.native ⟨0, 0, "", 0, 2, 0, [⟨"id", 3⟩],
      [Fetched.row ["1"], Fetched.row ["2"], Fetched.row ["3"], Fetched.row ["4"],
        Fetched.row ["5"]]⟩) "SELECT id FROM t" 2 false).val.map
        (fun ds => (ds._QueryResult.Result.RowsAffected, ds.Rows.length))) = some (2, 5) := by
  decide

/-- Instances of the amended C2: a SELECT of one column through `QuerySet` with
ceiling 2 against a server holding 2 rows, 5 rows, and with no ceiling. -/
theorem QuerySet_row_limit_witness :
    (∃ ds, (openConn.QuerySet (StubServer.native ⟨0, 0, "", 0, 2, 0, [⟨"id", 3⟩],
        [Fetched.row ["1"], Fetched.row ["2"]]⟩) "SELECT id FROM t" 2 false).val = some ds ∧
      (ds._QueryResult.Result.RowsAffected : Int) ≤ 2 ∧ (ds.Rows.length : Int) ≤ 2) ∧
    (openConn.QuerySet (StubServer.native ⟨0, 0, "", 0, 5, 0, [⟨"id", 3⟩], []⟩)
      "SELECT id FROM t" 2 false).err =
        some ⟨0, "Row count exceeded 2", "SELECT id FROM t"⟩ ∧
    (openConn.QuerySet (StubServer.native ⟨0, 0, "", 0, 2, 0, [⟨"id", 3⟩],
      [Fetched.row ["1"], Fetched.row ["2"]]⟩) "SELECT id FROM t" 0 false).err = none := by
  have h := QuerySet_row_limit (StubServer.native ⟨0, 0, "", 0, 2, 0, [⟨"id", 3⟩],
    [Fetched.row ["1"], Fetched.row ["2"]]⟩) openConn "SELECT id FROM t" 2 false (by decide)
  have g := QuerySet_row_limit (StubServer.native ⟨0, 0, "", 0, 5, 0, [⟨"id", 3⟩], []⟩)
    openConn "SELECT id FROM t" 2 false (by decide)
  have a := h.1 (by decide) (by decide) _ rfl
  exact ⟨⟨_, rfl, a.2.1, a.2.2 (by decide)⟩,
    (g.2.1 (by decide) rfl (by decide) (by decide) (by decide)).2.trans (by decide),
    (h.2.2.2.2.2 rfl (by decide) _ rfl).1⟩

/-! ## The lifecycle of a connection -/

/-- `execute` never changes the closed flag. -/
lemma execute_conn_closed (N : Native) (conn : Connection) (sql : String) (mode : OUR_MODE)
    (res : Result) : (conn.execute N sql mode res).conn.closed = conn.closed := by
  unfold Connection.execute
  split
  · rfl
  · simp only []
    split <;> simp_all [Connection.IsClosed]

/-- The connection the dispatch leaves is the one `execute` leaves. -/
lemma query_conn (N : Native) (conn : Connection) (sql : String) (mode : OUR_MODE)
    (res : _QueryResult) (maxrows : Int) (wantFields : Bool) :
    (conn.query N sql mode res maxrows wantFields).conn =
      (conn.execute N sql mode res.Result).conn := by
  simp only [Connection.query]
  split
  · rfl
  · split
    · rfl
    · split
      · rfl
      · split <;> rfl

/-- No operation but `Close` changes the closed flag, and `Close` sets it. -/
lemma apply_closed (N : Native) (conn : Connection) (op : Op) :
    (op.apply N conn).closed = if op = Op.Close then true else conn.closed := by
  cases op with
  | Close => rfl
  | Id => rfl
  | IsClosed => rfl
  | Execute sql =>
    have h : (conn.Execute N sql).conn =
        (conn.execute N sql OUR_MODE.OUR_MODE_NON Result.zero).conn := by
      simp only [Connection.Execute]
      split <;> rfl
    simp [Op.apply, h, execute_conn_closed]
  | QuerySet sql maxrows wantFields =>
    simp [Op.apply, QuerySet_conn, query_conn, execute_conn_closed]
  | QueryReader sql maxrows wantFields =>
    simp [Op.apply, QueryReader_eq, query_conn, execute_conn_closed]

/-- A closed connection makes no transition. -/
lemma transitions_closed (N : Native) (ops : List Op) :
    ∀ conn : Connection, conn.closed = true → transitions N conn ops = 0 := by
  induction ops with
  | nil => intro conn _; rfl
  | cons op ops ih =>
    intro conn h
    have h1 : (op.apply N conn).closed = true := by
      rw [apply_closed]
      split <;> simp [h]
    simp [transitions, Connection.IsClosed, h, ih _ h1]

/-- C8, as the code has it. `IsClosed()` is true after `Close`, and `Close`
returns nothing, so it surfaces no error. `Close` has no closed-guard: on an
already-closed connection it leaves the closed flag set and calls the native
close once more, on the handle that was already released. The connection after
it therefore holds the handle as that further native close leaves it, and is in
the same state as after a single `Close` exactly when the native close leaves a
released handle as it is. No operation turns a closed connection back to open,
neither alone nor in a sequence; any sequence of operations makes at most one
transition from Open to Closed, and exactly one when it starts open and
contains a `Close`. -/
theorem close_absorbing (N : Native) (conn : Connection) :
    (conn.Close N).1.IsClosed = true ∧
    (conn.IsClosed = true →
      conn.Close N = (⟨N.our_close conn.c, true⟩, [NativeCall.our_close conn.c]) ∧
      ((conn.Close N).1 = conn ↔ N.our_close conn.c = conn.c)) ∧
    (conn.Close N).1.Close N =
      (⟨N.our_close (N.our_close conn.c), true⟩,
        [NativeCall.our_close (N.our_close conn.c)]) ∧
    (((conn.Close N).1.Close N).1 = (conn.Close N).1 ↔
      N.our_close (N.our_close conn.c) = N.our_close conn.c) ∧
    (∀ op : Op, conn.IsClosed = true → (op.apply N conn).IsClosed = true) ∧
    (∀ ops : List Op, conn.IsClosed = true → (run N conn ops).IsClosed = true) ∧
    (∀ ops : List Op, transitions N conn ops ≤ 1) ∧
    (∀ ops : List Op, conn.IsClosed = false → Op.Close ∈ ops → transitions N conn ops = 1) := by
  have habs : ∀ (c : Connection) (op : Op), c.closed = true → (op.apply N c).closed = true := by
    intro c op h
    rw [apply_closed]
    split <;> simp [h]
  refine ⟨rfl, ?_, rfl, ?_, ?_, ?_, ?_, ?_⟩
  · intro h
    have hc : conn.closed = true := h
    refine ⟨rfl, ?_⟩
    rcases conn with ⟨c, cl⟩
    simp only at hc
    subst hc
    simp [Connection.Close]
  · simp [Connection.Close]
  · exact fun op h => habs conn op h
  · intro ops
    induction ops generalizing conn with
    | nil => exact fun h => h
    | cons op ops ih => exact fun h => ih (op.apply N conn) (habs conn op h)
  · intro ops
    induction ops generalizing conn with
    | nil => simp [transitions]
    | cons op ops ih =>
      by_cases h : (op.apply N conn).closed = true
      · have h0 := transitions_closed N ops _ h
        simp only [transitions, h0]
        split <;> simp
      · have h1 := ih (op.apply N conn)
        simp only [transitions, Connection.IsClosed, h]
        simpa using h1
  · intro ops
    induction ops generalizing conn with
    | nil => intro _ hmem; simp at hmem
    | cons op ops ih =>
      intro hopen hmem
      have hopen1 : conn.closed = false := hopen
      by_cases h : (op.apply N conn).closed = true
      · have h0 := transitions_closed N ops _ h
        simp [transitions, h0, Connection.IsClosed, hopen1, h]
      · have hne : op ≠ Op.Close := by
          intro hop
          apply h
          rw [apply_closed, if_pos hop]
        have hmem1 : Op.Close ∈ ops := by
          rcases List.mem_cons.mp hmem with h1 | h1
          · exact absurd h1.symm hne
          · exact h1
        have h1 := ih (op.apply N conn) (by simpa [Connection.IsClosed] using h) hmem1
        simp [transitions, Connection.IsClosed, h, h1]

/-- C8 as stated fails: against a native layer whose close counts the releases
of a handle, `Close` on the connection that a first `Close` left closed calls
the native close again on the released handle, and the connection it leaves is
not the one a single `Close` leaves (two releases recorded instead of one). -/
theorem close_absorbing_counterexample :
    (openConn.Close (StubServer.countingNative ⟨0, 0, "", 0, 1, 0, [], []⟩)).1 =
      ⟨⟨0, 0, 2⟩, true⟩ ∧
    ((openConn.Close (StubServer.countingNative ⟨0, 0, "", 0, 1, 0, [], []⟩)).1.Close
      (StubServer.countingNative ⟨0, 0, "", 0, 1, 0, [], []⟩)) =
        (⟨⟨0, 0, 3⟩, true⟩, [NativeCall.our_close ⟨0, 0, 2⟩]) ∧
    ((openConn.Close (StubServer.countingNative ⟨0, 0, "", 0, 1, 0, [], []⟩)).1.Close
      (StubServer.countingNative ⟨0, 0, "", 0, 1, 0, [], []⟩)).1 ≠
        (openConn.Close (StubServer.countingNative ⟨0, 0, "", 0, 1, 0, [], []⟩)).1 := by
  decide

/-- Instances of the amended C8: a run on an open connection that closes it
twice, with statements before, between and after; a second `Close` against a
native layer whose close leaves a released handle as it is, and against one
whose close counts the releases. -/
theorem close_absorbing_witness :
    (run (StubServer.native ⟨0, 0, "", 0, 1, 0, [], []⟩) openConn
      [Op.Execute "DELETE FROM t", Op.Close, Op.QuerySet "SELECT 1" 0 false, Op.Id, Op.Close,
        Op.QueryReader "SELECT 1" 0 true, Op.IsClosed]).IsClosed = true ∧
    transitions (StubServer.native ⟨0, 0, "", 0, 1, 0, [], []⟩) openConn
      [Op.Execute "DELETE FROM t", Op.Close, Op.QuerySet "SELECT 1" 0 false, Op.Id, Op.Close,
        Op.QueryReader "SELECT 1" 0 true, Op.IsClosed] = 1 ∧
    ((openConn.Close (StubServer.native ⟨0, 0, "", 0, 1, 0, [], []⟩)).1.Close
      (StubServer.native ⟨0, 0, "", 0, 1, 0, [], []⟩)).1 =
        (openConn.Close (StubServer.native ⟨0, 0, "", 0, 1, 0, [], []⟩)).1 ∧
    (Connection.Close (StubServer.countingNative ⟨0, 0, "", 0, 1, 0, [], []⟩)
      ⟨⟨0, 0, 2⟩, true⟩) = (⟨⟨0, 0, 3⟩, true⟩, [NativeCall.our_close ⟨0, 0, 2⟩]) ∧
    (run (StubServer.countingNative ⟨0, 0, "", 0, 1, 0, [], []⟩) ⟨⟨0, 0, 2⟩, true⟩
      [Op.Close, Op.Execute "SELECT 1", Op.Close]).IsClosed = true := by
  have h := close_absorbing (StubServer.native ⟨0, 0, "", 0, 1, 0, [], []⟩) openConn
  have g := close_absorbing (StubServer.countingNative ⟨0, 0, "", 0, 1, 0, [], []⟩)
    ⟨⟨0, 0, 2⟩, true⟩
  exact ⟨by decide, h.2.2.2.2.2.2.2 _ rfl (by decide), h.2.2.2.1.mpr rfl, (g.2.1 rfl).1,
    g.2.2.2.2.2.1 _ rfl⟩

end oursql
